import Mathlib

/-!
# Verification of the Prediction & Backtesting Engine

A shallow embedding, in Lean 4, of the core of the `tipster` repository:
`src/analysis/prediction_engine.py` (class `PredictionEngine`) and
`src/analysis/backtesting_manager.py` (class `BacktestingManager`).

Conventions of the embedding:
* Python floats are idealised as exact arithmetic: purely arithmetic code
  (ratings, expected goals, home advantage, value-bet filters, backtesting
  metrics) is embedded over `ℚ`; code that calls `math.exp` / `np.log` /
  `np.sqrt` (the Poisson probability engine, log-loss, Sharpe) is embedded
  over `ℝ` with `Real.exp`, `Real.log`, `Real.sqrt`.
* Python `None` becomes `Option`; a Python exception becomes `Except.error`.
* Dictionary lookups with defaults (`d.get(k, v)`) become `Option` reads
  with `getD`, or plain fields when every read site uses the same default.
* Leading underscores of Python method names are dropped; names are kept
  otherwise.
-/

namespace Tipster

/-- `max lo (min hi x)`: the clamping idiom `max(lo, min(hi, x))` used
throughout `prediction_engine.py`. -/
def clampQ (lo hi x : ℚ) : ℚ := max lo (min hi x)

/-! ## Rating Model (`PredictionEngine._calculate_team_ratings`)

`TeamStats` from `src/models/match_data.py`, restricted to the fields the
rating model reads.  `home_stats` / `away_stats` are the nested venue-only
`TeamStats`; a present dataclass instance is always truthy in Python, so
only `None` (here `none`) is falsy. -/

/-- Venue-split statistics (the nested `TeamStats` object): only the record
counts and goal totals are read by `_calculate_team_ratings`. -/
structure VenueStats where
  wins : ℚ := 0
  draws : ℚ := 0
  losses : ℚ := 0
  goals_for : ℚ := 0
  goals_against : ℚ := 0
deriving DecidableEq, Repr

/-- Team statistics (`TeamStats`): overall averages plus the optional
venue-split records used by the rating model and the BTS blend. -/
structure TeamStatsE where
  avg_goals_scored : ℚ := 0
  avg_goals_conceded : ℚ := 0
  bts_percentage : ℚ := 0
  home_stats : Option VenueStats := none
  away_stats : Option VenueStats := none
deriving DecidableEq, Repr

/-- `PredictionEngine._calculate_team_ratings`: four attack/defense strength
ratios, preferring venue-split samples; an overall-average fallback is taken
only when the venue-split object itself is `None`; finally everything is
clamped into `[0.3, 3.0]`. -/
def calculate_team_ratings (home_stats away_stats : Option TeamStatsE)
    (league_avg : ℚ) : ℚ × ℚ × ℚ × ℚ :=
  let hpair : ℚ × ℚ :=
    match home_stats with
    | none => (1, 1)
    | some ts =>
      match ts.home_stats with
      | some hs =>
        if hs.wins + hs.draws + hs.losses > 0 then
          let matches_played := hs.wins + hs.draws + hs.losses
          (hs.goals_for / matches_played / (league_avg / 2),
           hs.goals_against / matches_played / (league_avg / 2))
        else (1, 1)
      | none =>
        ((if ts.avg_goals_scored > 0 then ts.avg_goals_scored / (league_avg / 2) else 1),
         (if ts.avg_goals_conceded > 0 then ts.avg_goals_conceded / (league_avg / 2) else 1))
  let apair : ℚ × ℚ :=
    match away_stats with
    | none => (1, 1)
    | some ts =>
      match ts.away_stats with
      | some aws =>
        if aws.wins + aws.draws + aws.losses > 0 then
          let matches_played := aws.wins + aws.draws + aws.losses
          (aws.goals_for / matches_played / (league_avg / 2),
           aws.goals_against / matches_played / (league_avg / 2))
        else (1, 1)
      | none =>
        ((if ts.avg_goals_scored > 0 then ts.avg_goals_scored / (league_avg / 2) else 1),
         (if ts.avg_goals_conceded > 0 then ts.avg_goals_conceded / (league_avg / 2) else 1))
  (clampQ (3/10) 3 hpair.1, clampQ (3/10) 3 hpair.2,
   clampQ (3/10) 3 apair.1, clampQ (3/10) 3 apair.2)

/-! ## Expected Goals (`PredictionEngine._calculate_xg`) -/

/-- `PredictionEngine._calculate_xg`: base `attack × opponent_defense ×
league_avg/2`, home-advantage multiplier for the home side, form multiplier
`1 + form_impact × 0.20`, clamped into `[0.2, 5.0]`. -/
def calculate_xg (attack_strength opponent_defense league_avg home_advantage
    form_impact : ℚ) (is_home : Bool) : ℚ :=
  let xg := attack_strength * opponent_defense * (league_avg / 2)
  let xg := if is_home then xg * (1 + home_advantage) else xg
  let xg := xg * (1 + form_impact * (20/100))
  clampQ (2/10) 5 xg

/-! ## Home Advantage (`PredictionEngine._calculate_home_advantage`)

The league context reaching this method is the dict built by
`_extract_league_context`; the three entries read here are modelled as plain
fields (`home_win_pct` is always present, default 45; `avg_home_goals` /
`avg_away_goals` fall back to 1.4 / 1.2 via `.get`). -/

/-- The slice of the league-context dict read by
`_calculate_home_advantage`. -/
structure HomeAdvContext where
  home_win_pct : ℚ := 45
  avg_home_goals : ℚ := 14/10
  avg_away_goals : ℚ := 12/10
deriving DecidableEq, Repr

/-- `PredictionEngine._calculate_home_advantage`: banded on the league
home-win percentage, multiplied by a home/away goal-ratio adjustment, and
clamped to `HOME_ADVANTAGE_RANGE = (0.15, 0.45)`.  Note the banding: a
percentage in `[35, 40]` keeps the base value `0.30` (only `< 35` lowers it
to `0.20`). -/
def calculate_home_advantage (ctx : HomeAdvContext) : ℚ :=
  let home_adv : ℚ := 30/100
  let home_adv :=
    if ctx.home_win_pct > 50 then 40/100
    else if ctx.home_win_pct > 45 then 35/100
    else if ctx.home_win_pct > 40 then 30/100
    else if ctx.home_win_pct < 35 then 20/100
    else home_adv
  let home_adv :=
    if ctx.avg_home_goals > 0 ∧ ctx.avg_away_goals > 0 then
      let goal_diff_r := ctx.avg_home_goals / ctx.avg_away_goals
      if goal_diff_r > 13/10 then home_adv * (12/10)
      else if goal_diff_r < 11/10 then home_adv * (8/10)
      else home_adv
    else home_adv
  clampQ (15/100) (45/100) home_adv

/-! ## Form Impact (`PredictionEngine._calculate_form_impact`) -/

/-- One recent-match outcome label: `W`, `D` or `L`. -/
inductive FormOutcome | W | D | L
deriving DecidableEq, Repr

/-- `FORM_WEIGHTS = [5, 4, 3, 2, 1]` indexed access with fallback 1. -/
def form_weight (i : ℕ) : ℚ := [(5:ℚ), 4, 3, 2, 1].getD i 1

/-- `PredictionEngine._calculate_form_impact`: recency-weighted win/loss
score over the last (up to) 5 matches, 0 when fewer than 3 are known,
clamped into `[-1, 1]`. -/
def calculate_form_impact (last_matches : List FormOutcome) : ℚ :=
  if last_matches.length < 3 then 0
  else
    let taken := last_matches.take 5
    let form_score := (List.range taken.length).foldl
      (fun acc i =>
        match taken.getD i FormOutcome.D with
        | FormOutcome.W => acc + form_weight i
        | FormOutcome.D => acc
        | FormOutcome.L => acc - form_weight i) 0
    let total_weight := (List.range taken.length).foldl (fun acc i => acc + form_weight i) 0
    let form_impact := if total_weight > 0 then form_score / total_weight else 0
    max (-1) (min 1 form_impact)

/-! ## Uncertainty Scorer (`_calculate_prediction_variance`,
`_calculate_confidence_score`) -/

/-- `PredictionEngine._calculate_prediction_variance`: the mean of four
categorical factors (xG gap, data completeness, league reliability tier,
total-xG band).  The data-availability booleans mirror the four `bool(...)`
checks on the match object. -/
def calculate_prediction_variance (home_xg away_xg : ℚ)
    (has_standings has_detailed_stats has_form has_league_stats : Bool)
    (reliability : String) : ℚ :=
  let f1 : ℚ :=
    if |home_xg - away_xg| < 3/10 then 8/10
    else if |home_xg - away_xg| < 6/10 then 5/10
    else 2/10
  let data_quality :=
    (if has_standings then 1 else 0) + (if has_detailed_stats then 1 else 0) +
    (if has_form then 1 else 0) + (if has_league_stats then (1:ℕ) else 0)
  let f2 : ℚ := if data_quality ≥ 3 then 2/10 else if data_quality = 2 then 5/10 else 8/10
  let f3 : ℚ :=
    if reliability = "High" then 2/10
    else if reliability = "Medium" then 4/10
    else 7/10
  let f4 : ℚ :=
    if home_xg + away_xg < 15/10 then 7/10
    else if home_xg + away_xg > 35/10 then 6/10
    else 3/10
  (f1 + f2 + f3 + f4) / 4

/-- `PredictionEngine._calculate_confidence_score`: `(1 − variance) × 100`
plus bonuses for a clear xG gap and for each available data source, minus a
penalty for unpredictable leagues, clamped to `[0, 100]`. -/
def calculate_confidence_score (home_xg away_xg variance : ℚ)
    (has_standings has_league_statistics has_form5 : Bool)
    (unpredictability : ℚ) : ℚ :=
  let base := (1 - variance) * 100
  let base := if |home_xg - away_xg| > 1 then base + 10
    else if |home_xg - away_xg| > 7/10 then base + 5 else base
  let base := if has_standings then base + 5 else base
  let base := if has_league_statistics then base + 5 else base
  let base := if has_form5 then base + 5 else base
  let base := if unpredictability > 6/10 then base - 10 else base
  max 0 (min 100 base)

/-! ## Value Bet Detector (`PredictionEngine._detect_value_bets_advanced`) -/

/-- The odds fields of `MatchOdds` (from `src/models/match_data.py`) read by
the value-bet detector; `0.0` means "market not offered". -/
structure MatchOddsE where
  home_win : ℚ := 0
  draw : ℚ := 0
  away_win : ℚ := 0
  dc_1x : ℚ := 0
  dc_12 : ℚ := 0
  dc_x2 : ℚ := 0
  over_2_5 : ℚ := 0
  under_2_5 : ℚ := 0
  bts_yes : ℚ := 0
  bts_no : ℚ := 0
deriving DecidableEq, Repr

/-- One value-bet record, with the keys of the dict appended by
`_detect_value_bets_advanced`. -/
structure ValueBet where
  market : String
  our_probability : ℚ
  bookmaker_odds : ℚ
  implied_probability : ℚ
  edge : ℚ
  adjusted_edge : ℚ
  expected_value : ℚ
  roi : ℚ
  kelly_percentage : ℚ
  confidence : String
  risk : String
  prediction_confidence : ℚ
deriving DecidableEq, Repr

/-- The `markets` list assembled by `_detect_value_bets_advanced`:
the three 1X2 markets always, over/under 2.5 and BTS when offered, and the
three double-chance markets when offered. -/
def build_markets (odds : MatchOddsE)
    (home_prob draw_prob away_prob over_2_5_prob bts_prob : ℚ) :
    List (String × ℚ × ℚ) :=
  [("Home Win", home_prob, odds.home_win),
   ("Draw", draw_prob, odds.draw),
   ("Away Win", away_prob, odds.away_win)] ++
  (if odds.over_2_5 > 0 then
    [("Over 2.5", over_2_5_prob, odds.over_2_5),
     ("Under 2.5", 1 - over_2_5_prob, odds.under_2_5)] else []) ++
  (if odds.bts_yes > 0 then
    [("BTS Yes", bts_prob, odds.bts_yes),
     ("BTS No", 1 - bts_prob, odds.bts_no)] else []) ++
  (if odds.dc_1x > 0 then [("Double Chance 1X", home_prob + draw_prob, odds.dc_1x)] else []) ++
  (if odds.dc_12 > 0 then [("Double Chance 12", home_prob + away_prob, odds.dc_12)] else []) ++
  (if odds.dc_x2 > 0 then [("Double Chance X2", draw_prob + away_prob, odds.dc_x2)] else [])

/-- The body of the per-market loop of `_detect_value_bets_advanced`:
`none` models `continue` (odds ≤ 1.0, a failed filter, or a "Low"
value-bet confidence). -/
def eval_market (confidence_score : ℚ) (m : String × ℚ × ℚ) : Option ValueBet :=
  let market_name := m.1
  let our_prob := m.2.1
  let bookmaker_odds := m.2.2
  if bookmaker_odds ≤ 1 then none
  else
    let implied_prob := 1 / bookmaker_odds
    let edge := our_prob * bookmaker_odds - 1
    let edge_percentage := (our_prob - implied_prob) * 100
    let ev := our_prob * bookmaker_odds - 1
    let kelly_percentage : ℚ :=
      if bookmaker_odds > 1 then
        (our_prob * bookmaker_odds - 1) / (bookmaker_odds - 1) * 100
      else 0
    let confidence_multiplier := confidence_score / 100
    let adjusted_edge := edge * confidence_multiplier
    let min_edge : ℚ :=
      if bookmaker_odds > 3 then 10/100
      else if bookmaker_odds > 5/2 then 8/100
      else 5/100
    if adjusted_edge > min_edge ∧ our_prob > implied_prob ∧
        bookmaker_odds ≤ 5 ∧ our_prob ≥ 25/100 then
      let roi := ev * 100
      let risk : String :=
        if our_prob > 6/10 then "Low"
        else if our_prob > 45/100 then "Medium"
        else "High"
      let vb_confidence : String :=
        if adjusted_edge > 15/100 ∧ confidence_score > 75 then "Very High"
        else if adjusted_edge > 12/100 ∧ confidence_score > 70 then "High"
        else if adjusted_edge > 8/100 ∧ confidence_score > 60 then "Medium"
        else "Low"
      if vb_confidence = "Low" then none
      else some
        { market := market_name
          our_probability := our_prob
          bookmaker_odds := bookmaker_odds
          implied_probability := implied_prob
          edge := edge_percentage
          adjusted_edge := adjusted_edge * 100
          expected_value := ev
          roi := roi
          kelly_percentage := max 0 (min kelly_percentage 25)
          confidence := vb_confidence
          risk := risk
          prediction_confidence := confidence_score }
    else none

/-- Descending order on the stored `adjusted_edge`, the sort key of
`value_bets.sort(key=..., reverse=True)`. -/
def vb_le (a b : ValueBet) : Prop := b.adjusted_edge ≤ a.adjusted_edge

instance : DecidableRel vb_le := fun a b =>
  inferInstanceAs (Decidable (b.adjusted_edge ≤ a.adjusted_edge))

instance : IsTotal ValueBet vb_le := ⟨fun a b => le_total b.adjusted_edge a.adjusted_edge⟩

instance : IsTrans ValueBet vb_le := ⟨fun _ _ _ h1 h2 => le_trans h2 h1⟩

/-- `PredictionEngine._detect_value_bets_advanced`: the global gate
(`if not match.odds or confidence_score < 40: return []`), the per-market
loop, and the final descending sort by adjusted edge. -/
def detect_value_bets_advanced (odds : Option MatchOddsE)
    (home_prob draw_prob away_prob over_2_5_prob bts_prob
     confidence_score : ℚ) : List ValueBet :=
  match odds with
  | none => []
  | some o =>
    if confidence_score < 40 then []
    else
      List.insertionSort vb_le
        ((build_markets o home_prob draw_prob away_prob over_2_5_prob bts_prob).filterMap
          (eval_market confidence_score))

/-! ## Probability Engine (Poisson + Dixon-Coles), over `ℝ`. -/

/-- `PredictionEngine.RHO`, the Dixon-Coles low-score correlation. -/
noncomputable def RHO : ℝ := -11/100

/-- `PredictionEngine._poisson_pmf`: `λ^k · e^{−λ} / k!`. -/
noncomputable def poisson_pmf (k : ℕ) (lambda_val : ℝ) : ℝ :=
  lambda_val ^ k * Real.exp (-lambda_val) / (Nat.factorial k : ℝ)

/-- `PredictionEngine._dixon_coles_tau`: the low-score correction factor. -/
noncomputable def dixon_coles_tau (home_goals away_goals : ℕ) (lambda_home lambda_away : ℝ) : ℝ :=
  if home_goals = 0 ∧ away_goals = 0 then 1 - lambda_home * lambda_away * RHO
  else if home_goals = 0 ∧ away_goals = 1 then 1 + lambda_home * RHO
  else if home_goals = 1 ∧ away_goals = 0 then 1 + lambda_away * RHO
  else if home_goals = 1 ∧ away_goals = 1 then 1 - RHO
  else 1

/-- One cell of the truncated joint distribution of
`_calculate_match_probabilities_advanced`: the product of the two Poisson
masses, Dixon-Coles-corrected on the four low-score cells. -/
noncomputable def dc_cell (home_goals away_goals : ℕ) (lambda_home lambda_away : ℝ) : ℝ :=
  poisson_pmf home_goals lambda_home * poisson_pmf away_goals lambda_away *
    (if home_goals ≤ 1 ∧ away_goals ≤ 1 then
      dixon_coles_tau home_goals away_goals lambda_home lambda_away
     else 1)

/-- `PredictionEngine._calculate_match_probabilities_advanced`: sums the
0..8 × 0..8 corrected joint distribution into the three 1X2 aggregates and
normalises by their total. -/
noncomputable def calculate_match_probabilities_advanced
    (lambda_home lambda_away : ℝ) : ℝ × ℝ × ℝ :=
  let home_win_prob := Finset.sum (Finset.range 9) fun hg =>
    Finset.sum (Finset.range 9) fun ag =>
      if ag < hg then dc_cell hg ag lambda_home lambda_away else 0
  let draw_prob := Finset.sum (Finset.range 9) fun hg =>
    Finset.sum (Finset.range 9) fun ag =>
      if hg = ag then dc_cell hg ag lambda_home lambda_away else 0
  let away_win_prob := Finset.sum (Finset.range 9) fun hg =>
    Finset.sum (Finset.range 9) fun ag =>
      if hg < ag then dc_cell hg ag lambda_home lambda_away else 0
  let total := home_win_prob + draw_prob + away_win_prob
  (home_win_prob / total, draw_prob / total, away_win_prob / total)

/-- `PredictionEngine._calculate_over_under_advanced`: marginal total-goal
masses of the (uncorrected) joint Poisson, with the over-2.5 value blended
70/30 with the league baseline when that key is present in the context. -/
noncomputable def calculate_over_under_advanced (lambda_home lambda_away : ℝ)
    (over_2_5_baseline : Option ℚ) : ℝ × ℝ × ℝ × ℝ :=
  let goal_prob : ℕ → ℝ := fun total_goals =>
    Finset.sum (Finset.range (total_goals + 1)) fun home_g =>
      poisson_pmf home_g lambda_home * poisson_pmf (total_goals - home_g) lambda_away
  let over_0_5 := Finset.sum (Finset.Icc 1 10) goal_prob
  let over_1_5 := Finset.sum (Finset.Icc 2 10) goal_prob
  let over_2_5 := Finset.sum (Finset.Icc 3 10) goal_prob
  let over_3_5 := Finset.sum (Finset.Icc 4 10) goal_prob
  let over_2_5 :=
    match over_2_5_baseline with
    | some baseline => over_2_5 * (70/100) + (baseline : ℝ) * (30/100)
    | none => over_2_5
  (over_0_5, over_1_5, over_2_5, over_3_5)

/-- `PredictionEngine._calculate_bts_advanced`: 50/30/20 blend of the
Poisson estimate, the two teams' historical BTS rates (when both `TeamStats`
are present) and the league baseline; returns `(bts_yes, bts_no)`. -/
noncomputable def calculate_bts_advanced (lambda_home lambda_away : ℝ)
    (home_stats away_stats : Option TeamStatsE) (bts_baseline : ℚ) : ℝ × ℝ :=
  let prob_home_scores := 1 - poisson_pmf 0 lambda_home
  let prob_away_scores := 1 - poisson_pmf 0 lambda_away
  let poisson_bts := prob_home_scores * prob_away_scores
  let historical_bts : ℝ :=
    match home_stats, away_stats with
    | some hs, some as_ => (((hs.bts_percentage / 100 + as_.bts_percentage / 100) / 2 : ℚ) : ℝ)
    | _, _ => 1/2
  let league_bts : ℝ := (bts_baseline : ℝ)
  let bts_yes := poisson_bts * (50/100) + historical_bts * (30/100) + league_bts * (20/100)
  (bts_yes, 1 - bts_yes)

/-! ## Backtesting Manager (`src/analysis/backtesting_manager.py`)

Archived records are JSON dicts; optional keys are modelled with `Option`
when read sites use differing defaults (`confidence_score` defaults to 0 in
the min-filter and to 100 in the max-filter), and with plain fields when a
missing key and its default are indistinguishable at every read site
(odds default to 0, league to the empty string, value-bet lists to `[]`). -/

/-- A value-bet dict as stored in the archive, restricted to the keys read
by the backtesting manager. -/
structure VBArch where
  market : String := ""
  bookmaker_odds : ℚ := 0
  adjusted_edge : ℚ := 0
  kelly_percentage : ℚ := 0
deriving DecidableEq, Repr

/-- The `prediction` sub-dict of an archived record (keys read by the
backtesting manager). -/
structure PredArch where
  home_win_prob : Option ℚ := none
  draw_prob : Option ℚ := none
  away_win_prob : Option ℚ := none
  confidence_score : Option ℚ := none
  prediction_variance : Option ℚ := none
  value_bets : List VBArch := []
deriving DecidableEq, Repr

/-- The `actual` sub-dict: the realised outcome label (`"1"`, `"X"`, `"2"`;
an empty string models a missing/empty label). -/
structure ActualArch where
  outcome : String := ""
deriving DecidableEq, Repr

/-- The `match` sub-dict of an archived record. -/
structure MatchArch where
  league : String := ""
  home_team : String := ""
  away_team : String := ""
deriving DecidableEq, Repr

/-- One archived backtesting record (one entry of a day file's `matches`
list). `actual = none` models a record without the `actual` key (or with a
falsy one). -/
structure BTRecord where
  match_info : MatchArch := {}
  odds_home_win : ℚ := 0
  odds_draw : ℚ := 0
  odds_away_win : ℚ := 0
  prediction : Option PredArch := none
  actual : Option ActualArch := none
deriving DecidableEq, Repr

/-- `p.get('prediction', {}).get('confidence_score', d)` and friends. -/
def pred_getQ (r : BTRecord) (f : PredArch → Option ℚ) (d : ℚ) : ℚ :=
  ((r.prediction.bind f).getD d)

/-- `p.get('prediction', {}).get('value_bets', [])`. -/
def pred_value_bets (r : BTRecord) : List VBArch :=
  (r.prediction.map (fun p => p.value_bets)).getD []

/-- `pred_data.get('actual', {}).get('outcome', '')`. -/
def actual_outcome (r : BTRecord) : String :=
  (r.actual.map (fun a => a.outcome)).getD ""

/-- The filter dict accepted by `analyze_predictions`; every key is
optional (`none` = key absent). `leagues = []` covers both an absent key
and an empty (falsy) list; `stake_per_bet` / `use_kelly` carry their
`.get` defaults. -/
structure BTFilters where
  min_confidence : Option ℚ := none
  max_confidence : Option ℚ := none
  home_odds_min : Option ℚ := none
  home_odds_max : Option ℚ := none
  draw_odds_min : Option ℚ := none
  draw_odds_max : Option ℚ := none
  away_odds_min : Option ℚ := none
  away_odds_max : Option ℚ := none
  max_variance : Option ℚ := none
  value_only : Bool := false
  min_edge : Option ℚ := none
  leagues : List String := []
  stake_per_bet : ℚ := 10
  use_kelly : Bool := false
deriving DecidableEq, Repr

/-- `BacktestingManager._apply_filters`: successive list comprehensions;
each odds-range filter fires only when both its bounds are present. -/
def apply_filters (predictions : List BTRecord) (filters : BTFilters) : List BTRecord :=
  let filtered := predictions.filter (fun p => p.actual.isSome)
  let filtered :=
    match filters.min_confidence with
    | some min_conf => filtered.filter (fun p => min_conf ≤ pred_getQ p (fun x => x.confidence_score) 0)
    | none => filtered
  let filtered :=
    match filters.max_confidence with
    | some max_conf => filtered.filter (fun p => pred_getQ p (fun x => x.confidence_score) 100 ≤ max_conf)
    | none => filtered
  let filtered :=
    match filters.home_odds_min, filters.home_odds_max with
    | some lo, some hi => filtered.filter (fun p => lo ≤ p.odds_home_win ∧ p.odds_home_win ≤ hi)
    | _, _ => filtered
  let filtered :=
    match filters.draw_odds_min, filters.draw_odds_max with
    | some lo, some hi => filtered.filter (fun p => lo ≤ p.odds_draw ∧ p.odds_draw ≤ hi)
    | _, _ => filtered
  let filtered :=
    match filters.away_odds_min, filters.away_odds_max with
    | some lo, some hi => filtered.filter (fun p => lo ≤ p.odds_away_win ∧ p.odds_away_win ≤ hi)
    | _, _ => filtered
  let filtered :=
    match filters.max_variance with
    | some max_var => filtered.filter (fun p => pred_getQ p (fun x => x.prediction_variance) 1 ≤ max_var)
    | none => filtered
  let filtered :=
    if filters.value_only then filtered.filter (fun p => ¬ (pred_value_bets p).isEmpty) else filtered
  let filtered :=
    match filters.min_edge with
    | some min_edge =>
      filtered.filter (fun p =>
        ¬ (pred_value_bets p).isEmpty ∧
        min_edge ≤ (((pred_value_bets p).head?.map (fun v => v.adjusted_edge)).getD 0))
    | none => filtered
  match filters.leagues with
  | [] => filtered
  | selected => filtered.filter (fun p => p.match_info.league ∈ selected)

/-- The accuracy dict of `_calculate_accuracy` (all five keys; the
`total == 0` early return carries zeros). -/
structure AccuracyStats where
  top_1 : ℚ
  top_2 : ℚ
  top_1_count : ℕ
  top_2_count : ℕ
  total : ℕ
deriving DecidableEq, Repr

/-- Descending order on the probability component, the key of
`sorted(probs, key=lambda x: x[0], reverse=True)`. -/
def prob_desc (x y : ℚ × String) : Prop := y.1 ≤ x.1

instance : DecidableRel prob_desc := fun x y => inferInstanceAs (Decidable (y.1 ≤ x.1))

instance : IsTotal (ℚ × String) prob_desc := ⟨fun x y => le_total y.1 x.1⟩

instance : IsTrans (ℚ × String) prob_desc := ⟨fun _ _ _ h1 h2 => le_trans h2 h1⟩

/-- The loop body of `_calculate_accuracy`: update the pair
`(top_1_correct, top_2_correct)` with one record. -/
def accuracy_step (acc : ℕ × ℕ) (pred_data : BTRecord) : ℕ × ℕ :=
  let actual := actual_outcome pred_data
  if actual = "" then acc
  else
    let probs : List (ℚ × String) :=
      [(pred_getQ pred_data (fun x => x.home_win_prob) 0, "1"),
       (pred_getQ pred_data (fun x => x.draw_prob) 0, "X"),
       (pred_getQ pred_data (fun x => x.away_win_prob) 0, "2")]
    let sorted_probs := List.insertionSort prob_desc probs
    let top_1 := (sorted_probs.getD 0 (0, "")).2
    let top_2_outcomes := [(sorted_probs.getD 0 (0, "")).2, (sorted_probs.getD 1 (0, "")).2]
    if top_1 = actual then (acc.1 + 1, acc.2 + 1)
    else if actual ∈ top_2_outcomes then (acc.1, acc.2 + 1)
    else acc

/-- `BacktestingManager._calculate_accuracy`. -/
def calculate_accuracy (predictions : List BTRecord) : AccuracyStats :=
  let total := predictions.length
  if total = 0 then { top_1 := 0, top_2 := 0, top_1_count := 0, top_2_count := 0, total := 0 }
  else
    let c := predictions.foldl accuracy_step (0, 0)
    { top_1 := (c.1 : ℚ) / (total : ℚ) * 100
      top_2 := (c.2 : ℚ) / (total : ℚ) * 100
      top_1_count := c.1
      top_2_count := c.2
      total := total }

/-- `BacktestingManager._calculate_brier_score`: the mean three-way squared
error over records with a known outcome, 0 when none qualify. -/
def calculate_brier_score (predictions : List BTRecord) : ℚ :=
  let scores := predictions.filterMap (fun pred_data =>
    let actual := actual_outcome pred_data
    if actual = "" then none
    else
      let ph := pred_getQ pred_data (fun x => x.home_win_prob) 0
      let px := pred_getQ pred_data (fun x => x.draw_prob) 0
      let pa := pred_getQ pred_data (fun x => x.away_win_prob) 0
      let ah : ℚ := if actual = "1" then 1 else 0
      let ax : ℚ := if actual = "X" then 1 else 0
      let aa : ℚ := if actual = "2" then 1 else 0
      some ((ph - ah) ^ 2 + (px - ax) ^ 2 + (pa - aa) ^ 2))
  if scores.isEmpty then 0 else scores.sum / (scores.length : ℚ)

/-- `BacktestingManager._calculate_log_loss`: mean `−log` of the (clamped)
probability assigned to the realised outcome. -/
noncomputable def calculate_log_loss (predictions : List BTRecord) : ℝ :=
  let losses := predictions.filterMap (fun pred_data =>
    let actual := actual_outcome pred_data
    if actual = "" then none
    else
      let prob : ℚ :=
        if actual = "1" then pred_getQ pred_data (fun x => x.home_win_prob) (1/100)
        else if actual = "X" then pred_getQ pred_data (fun x => x.draw_prob) (1/100)
        else pred_getQ pred_data (fun x => x.away_win_prob) (1/100)
      let prob := max (1/100) (min (99/100) prob)
      some (-Real.log (prob : ℝ)))
  if losses.isEmpty then 0 else losses.sum / (losses.length : ℝ)

/-- One calibration bin of `_calculate_calibration`. -/
structure CalBin where
  avg_predicted : ℚ
  avg_actual : ℚ
  count : ℕ
  diff : ℚ
deriving DecidableEq, Repr

/-- The bin label assigned to a top predicted probability. -/
def calibration_bin_name (prob_pct : ℚ) : String :=
  if prob_pct < 20 then "0-20%"
  else if prob_pct < 40 then "20-40%"
  else if prob_pct < 60 then "40-60%"
  else if prob_pct < 80 then "60-80%"
  else "80-100%"

/-- `BacktestingManager._calculate_calibration`: per-bin mean predicted
probability vs realised hit rate, zeros for empty bins; bins in the fixed
dict order of the source. -/
def calculate_calibration (predictions : List BTRecord) : List (String × CalBin) :=
  let entries := predictions.filterMap (fun pred_data =>
    let actual := actual_outcome pred_data
    if actual = "" then none
    else
      let probs : List (ℚ × String) :=
        [(pred_getQ pred_data (fun x => x.home_win_prob) 0, "1"),
         (pred_getQ pred_data (fun x => x.draw_prob) 0, "X"),
         (pred_getQ pred_data (fun x => x.away_win_prob) 0, "2")]
      let sorted_probs := List.insertionSort prob_desc probs
      let top := sorted_probs.getD 0 (0, "")
      some (calibration_bin_name (top.1 * 100), top.1, (if top.2 = actual then (1:ℚ) else 0)))
  (["0-20%", "20-40%", "40-60%", "60-80%", "80-100%"]).map (fun bin_name =>
    let data := entries.filter (fun e => e.1 = bin_name)
    if data.isEmpty then
      (bin_name, { avg_predicted := 0, avg_actual := 0, count := 0, diff := 0 })
    else
      let avg_pred := (data.map (fun e => e.2.1)).sum / (data.length : ℚ) * 100
      let avg_actual := (data.map (fun e => e.2.2)).sum / (data.length : ℚ) * 100
      (bin_name, { avg_predicted := avg_pred, avg_actual := avg_actual,
                   count := data.length, diff := |avg_pred - avg_actual| }))

/-- Python's `round(x, 2)` (round-half-to-even on the idealised exact
value). -/
def round_half_even (x : ℚ) : ℤ :=
  let f := ⌊x⌋
  if x - f < 1/2 then f
  else if x - f > 1/2 then f + 1
  else if f % 2 = 0 then f else f + 1

/-- `round(x, 2)`. -/
def round2 (x : ℚ) : ℚ := (round_half_even (x * 100) : ℚ) / 100

/-- `round(x, 1)`. -/
def round1 (x : ℚ) : ℚ := (round_half_even (x * 10) : ℚ) / 10

/-- `BacktestingManager._check_bet_won`: substring matching on the
lowercased market name against the realised 1X2 outcome. -/
def check_bet_won (market actual_outcome : String) : Bool :=
  let ml := (market.toLower).toList
  if (decide (("home win").toList <:+: ml)) || market == "1" then actual_outcome == "1"
  else if (decide (("draw").toList <:+: ml)) || market == "X" then actual_outcome == "X"
  else if (decide (("away win").toList <:+: ml)) || market == "2" then actual_outcome == "2"
  else if decide (("1x").toList <:+: ml) then actual_outcome == "1" || actual_outcome == "X"
  else if decide (("12").toList <:+: ml) then actual_outcome == "1" || actual_outcome == "2"
  else if decide (("x2").toList <:+: ml) then actual_outcome == "X" || actual_outcome == "2"
  else false

/-- One simulated bet row of `_analyze_value_bets`. -/
structure BetRow where
  market : String
  odds : ℚ
  stake : ℚ
  bet_return : ℚ
  profit : ℚ
  won : Bool
  edge : ℚ
  match_label : String
deriving DecidableEq, Repr

/-- The financial summary dict of `_analyze_value_bets` (`sharpe` is the
`sharpe_ratio` key). -/
structure VBAnalysis where
  total_bets : ℕ
  won : ℕ
  lost : ℕ
  total_staked : ℚ
  total_return : ℚ
  net_profit : ℚ
  roi : ℚ
  win_rate : ℚ
  avg_odds : ℚ
  sharpe : ℝ
  bets : List BetRow

/-- The loop body of `_analyze_value_bets`: one record's top value bet
turned into a simulated bet (or skipped). -/
def make_bet (stake_per_bet : ℚ) (use_kelly : Bool) (pred_data : BTRecord) : Option BetRow :=
  let actual := actual_outcome pred_data
  match pred_value_bets pred_data with
  | [] => none
  | best_vb :: _ =>
    if actual = "" then none
    else
      let odds := best_vb.bookmaker_odds
      if odds ≤ 1 then none
      else
        let stake :=
          if use_kelly then
            max 1 (min (stake_per_bet * (best_vb.kelly_percentage / 100)) (stake_per_bet * (25/100)))
          else stake_per_bet
        let won := check_bet_won best_vb.market actual
        let bet_return := if won then stake * odds else 0
        some { market := best_vb.market
               odds := odds
               stake := stake
               bet_return := bet_return
               profit := bet_return - stake
               won := won
               edge := best_vb.adjusted_edge
               match_label := pred_data.match_info.home_team ++ " vs " ++ pred_data.match_info.away_team }

/-- `BacktestingManager._analyze_value_bets`: simulate a stake on every
record's top value bet and aggregate the financial performance. -/
noncomputable def analyze_value_bets (predictions : List BTRecord) (filters : BTFilters) : VBAnalysis :=
  let bets := predictions.filterMap (make_bet filters.stake_per_bet filters.use_kelly)
  if bets.isEmpty then
    { total_bets := 0, won := 0, lost := 0, total_staked := 0, total_return := 0,
      net_profit := 0, roi := 0, win_rate := 0, avg_odds := 0, sharpe := 0, bets := [] }
  else
    let total_staked := (bets.map (fun b => b.stake)).sum
    let total_return := (bets.map (fun b => b.bet_return)).sum
    let won_count := (bets.filter (fun b => b.won)).length
    let lost_count := bets.length - won_count
    let net_profit := total_return - total_staked
    let roi := if total_staked > 0 then net_profit / total_staked * 100 else 0
    let win_rate := (won_count : ℚ) / (bets.length : ℚ) * 100
    let avg_odds := (bets.map (fun b => b.odds)).sum / (bets.length : ℚ)
    let profits := bets.map (fun b => b.profit)
    let avg_profit : ℝ := ((profits.sum / (profits.length : ℚ) : ℚ) : ℝ)
    let std_profit : ℝ :=
      Real.sqrt (((profits.map (fun p => ((p : ℝ) - avg_profit) ^ 2)).sum) / (profits.length : ℝ))
    let sharpe : ℝ :=
      if 1 < profits.length then (if 0 < std_profit then avg_profit / std_profit else 0) else 0
    { total_bets := bets.length
      won := won_count
      lost := lost_count
      total_staked := round2 total_staked
      total_return := round2 total_return
      net_profit := round2 net_profit
      roi := round2 roi
      win_rate := round2 win_rate
      avg_odds := round2 avg_odds
      sharpe := sharpe
      bets := bets }

/-- One row of a breakdown table (count / accuracy / ROI). -/
structure BreakdownRow where
  count : ℕ
  accuracy : ℚ
  roi : ℚ
deriving DecidableEq, Repr

/-- `BacktestingManager._breakdown_by_confidence`: the four fixed
confidence bands. -/
noncomputable def breakdown_by_confidence (predictions : List BTRecord) :
    List (String × BreakdownRow) :=
  let conf := fun (p : BTRecord) => pred_getQ p (fun x => x.confidence_score) 0
  let bands : List (String × (BTRecord → Bool)) :=
    [("75-100", fun p => 75 ≤ conf p),
     ("60-75", fun p => 60 ≤ conf p ∧ conf p < 75),
     ("40-60", fun p => 40 ≤ conf p ∧ conf p < 60),
     ("0-40", fun p => conf p < 40)]
  bands.map (fun band =>
    let preds := predictions.filter band.2
    if preds.isEmpty then (band.1, { count := 0, accuracy := 0, roi := 0 })
    else
      (band.1, { count := preds.length
                 accuracy := round1 (calculate_accuracy preds).top_1
                 roi := round1 (analyze_value_bets preds {}).roi }))

/-- Distinct keys of a list, in first-appearance order (the insertion order
of a Python dict built by grouping). -/
def distinct_keys (l : List String) : List String :=
  l.foldl (fun acc k => if k ∈ acc then acc else acc ++ [k]) []

/-- Descending order on the row count, the key of the final
`sorted(..., key=lambda x: x[1]['count'], reverse=True)`. -/
def count_desc (x y : String × BreakdownRow) : Prop := y.2.count ≤ x.2.count

instance : DecidableRel count_desc := fun x y => inferInstanceAs (Decidable (y.2.count ≤ x.2.count))

instance : IsTotal (String × BreakdownRow) count_desc := ⟨fun x y => le_total y.2.count x.2.count⟩

instance : IsTrans (String × BreakdownRow) count_desc := ⟨fun _ _ _ h1 h2 => le_trans h2 h1⟩

/-- `BacktestingManager._breakdown_by_league`: group by league (default
`'Unknown'`... the source reads `.get('league', 'Unknown')`, here the
missing-league default is the record's stored league string), compute
accuracy/ROI per league, sort by count descending. -/
noncomputable def breakdown_by_league (predictions : List BTRecord) :
    List (String × BreakdownRow) :=
  let leagues := distinct_keys (predictions.map (fun p => p.match_info.league))
  let rows := leagues.map (fun league =>
    let preds := predictions.filter (fun p => p.match_info.league == league)
    (league, { count := preds.length
               accuracy := round1 (calculate_accuracy preds).top_1
               roi := round1 (analyze_value_bets preds {}).roi : BreakdownRow }))
  List.insertionSort count_desc rows

/-- One row of the by-market breakdown. -/
structure MarketRow where
  count : ℕ
  won : ℕ
  lost : ℕ
  roi : ℚ
  win_rate : ℚ
deriving DecidableEq, Repr

/-- `BacktestingManager._breakdown_by_market`: group by the market of each
record's top value bet (records without value bets are skipped). -/
noncomputable def breakdown_by_market (predictions : List BTRecord) :
    List (String × MarketRow) :=
  let with_vb := predictions.filter (fun p => ¬ (pred_value_bets p).isEmpty)
  let key := fun (p : BTRecord) => (((pred_value_bets p).head?.map (fun v => v.market)).getD "Unknown")
  let markets := distinct_keys (with_vb.map key)
  markets.map (fun market =>
    let preds := with_vb.filter (fun p => key p == market)
    let va := analyze_value_bets preds {}
    (market, { count := preds.length, won := va.won, lost := va.lost,
               roi := va.roi, win_rate := va.win_rate }))

/-- The full result dict of `analyze_predictions`. -/
structure BTResults where
  total_matches : ℕ
  original_matches : ℕ
  accuracy : AccuracyStats
  brier_score : ℚ
  log_loss : ℝ
  calibration : List (String × CalBin)
  value_bets : VBAnalysis
  by_confidence : List (String × BreakdownRow)
  by_league : List (String × BreakdownRow)
  by_market : List (String × MarketRow)
  matches_details : List BTRecord

/-- `BacktestingManager._empty_results`: the all-zero / all-empty result. -/
def empty_results : BTResults :=
  { total_matches := 0
    original_matches := 0
    accuracy := { top_1 := 0, top_2 := 0, top_1_count := 0, top_2_count := 0, total := 0 }
    brier_score := 0
    log_loss := 0
    calibration := []
    value_bets := { total_bets := 0, won := 0, lost := 0, total_staked := 0, total_return := 0,
                    net_profit := 0, roi := 0, win_rate := 0, avg_odds := 0, sharpe := 0, bets := [] }
    by_confidence := []
    by_league := []
    by_market := []
    matches_details := [] }

/-- `BacktestingManager.analyze_predictions`: filter, and either the empty
result (when the filters eliminate everything) or the full metric set. -/
noncomputable def analyze_predictions (predictions_data : List BTRecord)
    (filters : BTFilters) : BTResults :=
  let filtered := apply_filters predictions_data filters
  if filtered.isEmpty then empty_results
  else
    { total_matches := filtered.length
      original_matches := predictions_data.length
      accuracy := calculate_accuracy filtered
      brier_score := calculate_brier_score filtered
      log_loss := calculate_log_loss filtered
      calibration := calculate_calibration filtered
      value_bets := analyze_value_bets filtered filters
      by_confidence := breakdown_by_confidence filtered
      by_league := breakdown_by_league filtered
      by_market := breakdown_by_market filtered
      matches_details := filtered }

/-! ## Archive date range (`BacktestingManager.load_predictions`)

The loop advances with `current_date.replace(day=current_date.day + 1)`.
`datetime.replace` validates the new day against the length of the
*current* month and raises `ValueError` when it is out of range; it never
changes the month.  The archive itself (day files on disk; a missing file
contributes nothing) is abstracted as a function from dates to record
lists. -/

/-- A calendar date as carried by `datetime` (validated fields). -/
structure ADate where
  year : ℤ
  month : ℕ
  day : ℕ
deriving DecidableEq, Repr

/-- Gregorian leap-year rule (as implemented by `datetime`). -/
def is_leap_year (y : ℤ) : Bool :=
  y % 4 == 0 && (y % 100 != 0 || y % 400 == 0)

/-- Days in a month (as validated by `datetime`); 0 for an invalid month
number, so that any replacement into it fails. -/
def days_in_month (y : ℤ) (m : ℕ) : ℕ :=
  match m with
  | 1 => 31
  | 2 => if is_leap_year y then 29 else 28
  | 3 => 31
  | 4 => 30
  | 5 => 31
  | 6 => 30
  | 7 => 31
  | 8 => 31
  | 9 => 30
  | 10 => 31
  | 11 => 30
  | 12 => 31
  | _ => 0

/-- `d.replace(day=n)`: keeps year and month, validates `n` against the
current month's length, raises `ValueError` (here `none`) otherwise. -/
def replace_day (d : ADate) (n : ℕ) : Option ADate :=
  if 1 ≤ n ∧ n ≤ days_in_month d.year d.month then some { d with day := n } else none

/-- `current_date <= end_date` on dates (lexicographic). -/
def date_le (a b : ADate) : Bool :=
  a.year < b.year ||
    (a.year == b.year && (a.month < b.month || (a.month == b.month && a.day ≤ b.day)))

/-- `BacktestingManager.load_predictions`: walk the date range day by day,
concatenating each day's archived `matches`; the day increment is
`replace(day=day+1)`, whose `ValueError` (end of month) aborts the whole
call with an exception. -/
def load_predictions (archive : ADate → List BTRecord) (current_date end_date : ADate) :
    Except String (List BTRecord) :=
  if date_le current_date end_date then
    match hrep : replace_day current_date (current_date.day + 1) with
    | none => Except.error ("ValueError: day is out of range for month")
    | some next_date =>
      match load_predictions archive next_date end_date with
      | Except.error e => Except.error e
      | Except.ok rest => Except.ok (archive current_date ++ rest)
  else Except.ok []
termination_by 32 - current_date.day
decreasing_by
  simp only [replace_day, Option.ite_none_right_eq_some, Option.some.injEq] at hrep
  obtain ⟨⟨h1, h2⟩, h3⟩ := hrep
  have h31 : days_in_month current_date.year current_date.month ≤ 31 := by
    unfold days_in_month
    split <;> first | omega | (split <;> omega)
  have : next_date.day = current_date.day + 1 := by
    subst h3
    rfl
  omega

/-! ## Spec-side definitions used by refinement statements -/

/-- The home-win-percentage banding as the spec describes it, amended to
the code's actual five cases: `>50 → 0.40`, `>45 → 0.35`, `>40 → 0.30`,
`<35 → 0.20`, and otherwise (a percentage in `[35, 40]`) the base `0.30`. -/
def home_advantage_banding (pct : ℚ) : ℚ :=
  if pct > 50 then 40/100
  else if pct > 45 then 35/100
  else if pct > 40 then 30/100
  else if pct < 35 then 20/100
  else 30/100

/-- The goal-ratio multiplier of the spec: `×1.2` when the league
home/away goal ratio exceeds 1.3, `×0.8` when it is below 1.1, neutral
otherwise or when either average is non-positive. -/
def home_advantage_goal_factor (avg_home avg_away : ℚ) : ℚ :=
  if avg_home > 0 ∧ avg_away > 0 then
    if avg_home / avg_away > 13/10 then 12/10
    else if avg_home / avg_away < 11/10 then 8/10
    else 1
  else 1

/-! # Theorems for the claims -/

/-- Claim C4 (corrected), counterexample: with a league home-win percentage
of 38% (and the default goal averages 1.4 / 1.2, which trigger no
multiplier), `_calculate_home_advantage` returns 0.30, not the 0.20 the
claim's `else → 0.20` banding predicts. -/
theorem c4_home_advantage_counterexample :
    calculate_home_advantage { home_win_pct := 38 } = 30/100 ∧
    calculate_home_advantage { home_win_pct := 38 } ≠ 20/100 := by
  constructor
  · norm_num [calculate_home_advantage, clampQ]
  · norm_num [calculate_home_advantage, clampQ]

/-- Claim C4 (corrected, amended): the home advantage equals the clamp to
`[0.15, 0.45]` of the banded home-win-percentage value times the goal-ratio
factor, where the banding maps `>50 → 0.40`, `>45 → 0.35`, `>40 → 0.30`,
`<35 → 0.20` and keeps the base `0.30` for percentages in `[35, 40]`; in
particular a home-win percentage of 38% (no other adjustments) yields
0.30. -/
theorem c4_home_advantage_amended (ctx : HomeAdvContext) :
    calculate_home_advantage ctx =
      clampQ (15/100) (45/100)
        (home_advantage_banding ctx.home_win_pct *
          home_advantage_goal_factor ctx.avg_home_goals ctx.avg_away_goals) ∧
    calculate_home_advantage { home_win_pct := 38 } = 30/100 := by
  constructor
  · simp only [calculate_home_advantage, home_advantage_banding, home_advantage_goal_factor]
    split_ifs <;> ring_nf
  · norm_num [calculate_home_advantage, clampQ]

/-- Claim C4 has hypotheses-free amended form; this witness instantiates it
at a concrete context. -/
theorem c4_home_advantage_amended_witness :
    calculate_home_advantage { home_win_pct := 47, avg_home_goals := 8/5, avg_away_goals := 1 } =
      clampQ (15/100) (45/100)
        (home_advantage_banding 47 * home_advantage_goal_factor (8/5) 1) :=
  (c4_home_advantage_amended { home_win_pct := 47, avg_home_goals := 8/5, avg_away_goals := 1 }).1

/-- Claim C5 (corrected), counterexample: a team whose venue-split record
exists but has zero sample size (wins + draws + losses = 0), while its
overall averages are positive, keeps the neutral ratings `1.0`; the rating
model does not fall back to the overall statistics. -/
theorem c5_zero_sample_counterexample :
    (({ avg_goals_scored := 2, avg_goals_conceded := 1, home_stats := some {} } : TeamStatsE).home_stats = some ({} : VenueStats)) ∧
    ({} : VenueStats).wins + ({} : VenueStats).draws + ({} : VenueStats).losses = 0 ∧
    (0 : ℚ) < ({ avg_goals_scored := 2, avg_goals_conceded := 1, home_stats := some {} } : TeamStatsE).avg_goals_scored ∧
    calculate_team_ratings (some ({ avg_goals_scored := 2, avg_goals_conceded := 1, home_stats := some {} } : TeamStatsE)) none (26/10) = (1, 1, 1, 1) ∧
    (1 : ℚ) ≠ clampQ (3/10) 3 (2 / ((26/10) / 2)) := by
  refine ⟨rfl, by norm_num, by norm_num, ?_, by norm_num [clampQ]⟩
  norm_num [calculate_team_ratings, clampQ]

/-- Claim C5 (corrected, amended): for either team, the rating model falls
back to overall statistics only when no venue-split statistics object is
present at all; when a venue-split object exists but has zero sample size
the ratings stay at the neutral default 1.0.  The home team reads
`home_stats.home_stats` (components `.1`, `.2.1`), the away team reads
`away_stats.away_stats` (components `.2.2.1`, `.2.2.2`); `other` is the
opposing team's (arbitrary) statistics argument. -/
theorem c5_venue_fallback_amended (ts : TeamStatsE) (other : Option TeamStatsE)
    (league_avg : ℚ) :
    (∀ vs, ts.home_stats = some vs → vs.wins + vs.draws + vs.losses = 0 →
      (calculate_team_ratings (some ts) other league_avg).1 = 1 ∧
      (calculate_team_ratings (some ts) other league_avg).2.1 = 1) ∧
    (ts.home_stats = none →
      (0 < ts.avg_goals_scored →
        (calculate_team_ratings (some ts) other league_avg).1 =
          clampQ (3/10) 3 (ts.avg_goals_scored / (league_avg / 2))) ∧
      (0 < ts.avg_goals_conceded →
        (calculate_team_ratings (some ts) other league_avg).2.1 =
          clampQ (3/10) 3 (ts.avg_goals_conceded / (league_avg / 2)))) ∧
    (∀ vs, ts.away_stats = some vs → vs.wins + vs.draws + vs.losses = 0 →
      (calculate_team_ratings other (some ts) league_avg).2.2.1 = 1 ∧
      (calculate_team_ratings other (some ts) league_avg).2.2.2 = 1) ∧
    (ts.away_stats = none →
      (0 < ts.avg_goals_scored →
        (calculate_team_ratings other (some ts) league_avg).2.2.1 =
          clampQ (3/10) 3 (ts.avg_goals_scored / (league_avg / 2))) ∧
      (0 < ts.avg_goals_conceded →
        (calculate_team_ratings other (some ts) league_avg).2.2.2 =
          clampQ (3/10) 3 (ts.avg_goals_conceded / (league_avg / 2)))) := by
  refine ⟨?_, ?_, ?_, ?_⟩
  · intro vs hvs hzero
    simp only [calculate_team_ratings, hvs]
    rw [if_neg (by rw [hzero]; exact lt_irrefl 0)]
    constructor <;> norm_num [clampQ]
  · intro hnone
    constructor
    · intro hpos
      simp only [calculate_team_ratings, hnone]
      rw [if_pos hpos]
    · intro hpos
      simp only [calculate_team_ratings, hnone]
      rw [if_pos hpos]
  · intro vs hvs hzero
    simp only [calculate_team_ratings, hvs]
    rw [if_neg (by rw [hzero]; exact lt_irrefl 0)]
    constructor <;> norm_num [clampQ]
  · intro hnone
    constructor
    · intro hpos
      simp only [calculate_team_ratings, hnone]
      rw [if_pos hpos]
    · intro hpos
      simp only [calculate_team_ratings, hnone]
      rw [if_pos hpos]

/-- Witness for C5's amended theorem: all four branches applied at concrete
teams — a zero-sample home-venue object, an absent home-venue object, a
zero-sample away-venue object, and an absent away-venue object, each with
positive overall averages. -/
theorem c5_venue_fallback_amended_witness :
    ((calculate_team_ratings (some ({ avg_goals_scored := 2, avg_goals_conceded := 1, home_stats := some {} } : TeamStatsE)) none (26/10)).1 = 1) ∧
    ((calculate_team_ratings (some ({ avg_goals_scored := 2, avg_goals_conceded := 1 } : TeamStatsE)) none (26/10)).1 = clampQ (3/10) 3 (2 / ((26/10) / 2))) ∧
    ((calculate_team_ratings none (some ({ avg_goals_scored := 2, avg_goals_conceded := 1, away_stats := some {} } : TeamStatsE)) (26/10)).2.2.1 = 1) ∧
    ((calculate_team_ratings none (some ({ avg_goals_scored := 2, avg_goals_conceded := 1 } : TeamStatsE)) (26/10)).2.2.2 = clampQ (3/10) 3 (1 / ((26/10) / 2))) := by
  refine ⟨?_, ?_, ?_, ?_⟩
  · exact ((c5_venue_fallback_amended { avg_goals_scored := 2, avg_goals_conceded := 1, home_stats := some {} } none (26/10)).1 {} rfl (by norm_num)).1
  · exact ((c5_venue_fallback_amended { avg_goals_scored := 2, avg_goals_conceded := 1 } none (26/10)).2.1 rfl).1 (by norm_num)
  · exact ((c5_venue_fallback_amended { avg_goals_scored := 2, avg_goals_conceded := 1, away_stats := some {} } none (26/10)).2.2.1 {} rfl (by norm_num)).1
  · exact ((c5_venue_fallback_amended { avg_goals_scored := 2, avg_goals_conceded := 1 } none (26/10)).2.2.2 rfl).2 (by norm_num)

/-- Claim C9 (confirmed): whenever the confidence score is below 40, or no
odds object is supplied, the value-bet detector returns the empty list —
the global gate precedes any per-market evaluation. -/
theorem c9_value_bet_gate (odds : Option MatchOddsE)
    (home_prob draw_prob away_prob over_2_5_prob bts_prob confidence_score : ℚ)
    (h : confidence_score < 40 ∨ odds = none) :
    detect_value_bets_advanced odds home_prob draw_prob away_prob over_2_5_prob
      bts_prob confidence_score = [] := by
  rcases h with h | h
  · cases odds with
    | none => rfl
    | some o => simp [detect_value_bets_advanced, h]
  · rw [h]
    rfl

/-- Witness for C9 at a concrete low-confidence input. -/
theorem c9_value_bet_gate_witness :
    ((10 : ℚ) < 40 ∨ (some ({} : MatchOddsE) : Option MatchOddsE) = none) ∧
    detect_value_bets_advanced (some { home_win := 2, draw := 3, away_win := 4 })
      (6/10) (2/10) (2/10) (1/2) (1/2) 10 = [] :=
  ⟨Or.inl (by norm_num),
   c9_value_bet_gate (some { home_win := 2, draw := 3, away_win := 4 })
     (6/10) (2/10) (2/10) (1/2) (1/2) 10 (Or.inl (by norm_num))⟩

/-- One step of the accuracy loop never lets the top-1 counter overtake the
top-2 counter: a top-1 hit increments both, a top-2 hit increments only the
second. -/
theorem accuracy_step_le (acc : ℕ × ℕ) (p : BTRecord) (h : acc.1 ≤ acc.2) :
    (accuracy_step acc p).1 ≤ (accuracy_step acc p).2 := by
  simp only [accuracy_step]
  split_ifs <;> first | exact h | (dsimp only; omega)

/-- The accuracy fold preserves `top_1_correct ≤ top_2_correct`. -/
theorem accuracy_foldl_le (l : List BTRecord) (acc : ℕ × ℕ) (h : acc.1 ≤ acc.2) :
    (l.foldl accuracy_step acc).1 ≤ (l.foldl accuracy_step acc).2 := by
  induction l generalizing acc with
  | nil => exact h
  | cons p t ih =>
    simp only [List.foldl_cons]
    exact ih (accuracy_step acc p) (accuracy_step_le acc p h)

/-- Claim C10 (confirmed): on every non-empty record list, every top-1 hit
is also a top-2 hit, so `top_2_count ≥ top_1_count` and the percentage
`top_2 ≥ top_1`. -/
theorem c10_accuracy_top2_ge_top1 (predictions : List BTRecord)
    (h : predictions ≠ []) :
    (calculate_accuracy predictions).top_1_count ≤ (calculate_accuracy predictions).top_2_count ∧
    (calculate_accuracy predictions).top_1 ≤ (calculate_accuracy predictions).top_2 := by
  have hlen : predictions.length ≠ 0 := by
    simpa using h
  have hc := accuracy_foldl_le predictions (0, 0) le_rfl
  unfold calculate_accuracy
  rw [if_neg hlen]
  refine ⟨hc, ?_⟩
  have hpos : (0 : ℚ) < (predictions.length : ℚ) := by
    exact_mod_cast Nat.pos_of_ne_zero hlen
  have hcq : ((predictions.foldl accuracy_step (0, 0)).1 : ℚ) ≤
      ((predictions.foldl accuracy_step (0, 0)).2 : ℚ) := by exact_mod_cast hc
  have h100 : (0 : ℚ) ≤ 100 := by norm_num
  exact mul_le_mul_of_nonneg_right (div_le_div_of_nonneg_right hcq hpos.le) h100

/-- Witness for C10: a one-record list. -/
theorem c10_accuracy_top2_ge_top1_witness :
    ([({ actual := some { outcome := "1" }, prediction := some { home_win_prob := some (1/2) } } : BTRecord)] ≠ ([] : List BTRecord)) ∧
    ((calculate_accuracy [({ actual := some { outcome := "1" }, prediction := some { home_win_prob := some (1/2) } } : BTRecord)]).top_1_count ≤
      (calculate_accuracy [({ actual := some { outcome := "1" }, prediction := some { home_win_prob := some (1/2) } } : BTRecord)]).top_2_count ∧
     (calculate_accuracy [({ actual := some { outcome := "1" }, prediction := some { home_win_prob := some (1/2) } } : BTRecord)]).top_1 ≤
      (calculate_accuracy [({ actual := some { outcome := "1" }, prediction := some { home_win_prob := some (1/2) } } : BTRecord)]).top_2) :=
  ⟨by simp,
   c10_accuracy_top2_ge_top1
     [({ actual := some { outcome := "1" }, prediction := some { home_win_prob := some (1/2) } } : BTRecord)]
     (by simp)⟩

/-- Claim C8 (confirmed): whenever the filters eliminate every record,
`analyze_predictions` returns the well-defined empty result: zero matches,
zero accuracy counts, zero Brier score and log-loss, empty calibration and
breakdown maps, and all-zero value-bet financials — never an exception
(the embedding is a total function) and never a null. -/
theorem c8_empty_filter_result (predictions_data : List BTRecord)
    (filters : BTFilters) (h : apply_filters predictions_data filters = []) :
    analyze_predictions predictions_data filters = empty_results ∧
    empty_results.total_matches = 0 ∧
    empty_results.original_matches = 0 ∧
    empty_results.accuracy = { top_1 := 0, top_2 := 0, top_1_count := 0, top_2_count := 0, total := 0 } ∧
    empty_results.brier_score = 0 ∧
    empty_results.log_loss = 0 ∧
    empty_results.calibration = [] ∧
    empty_results.value_bets.total_bets = 0 ∧
    empty_results.value_bets.won = 0 ∧
    empty_results.value_bets.lost = 0 ∧
    empty_results.value_bets.total_staked = 0 ∧
    empty_results.value_bets.total_return = 0 ∧
    empty_results.value_bets.net_profit = 0 ∧
    empty_results.value_bets.roi = 0 ∧
    empty_results.value_bets.win_rate = 0 ∧
    empty_results.value_bets.avg_odds = 0 ∧
    empty_results.value_bets.sharpe = 0 ∧
    empty_results.value_bets.bets = [] ∧
    empty_results.by_confidence = [] ∧
    empty_results.by_league = [] ∧
    empty_results.by_market = [] ∧
    empty_results.matches_details = [] := by
  refine ⟨?_, rfl, rfl, rfl, rfl, rfl, rfl, rfl, rfl, rfl, rfl, rfl, rfl, rfl, rfl, rfl, rfl,
    rfl, rfl, rfl, rfl, rfl⟩
  unfold analyze_predictions
  rw [h]
  rfl

/-- Witness for C8: one archived record with confidence 80 against the
impossible filter `min_confidence = 101`. -/
theorem c8_empty_filter_result_witness :
    apply_filters [({ actual := some { outcome := "1" }, prediction := some { confidence_score := some 80 } } : BTRecord)] { min_confidence := some 101 } = [] ∧
    analyze_predictions [({ actual := some { outcome := "1" }, prediction := some { confidence_score := some 80 } } : BTRecord)] { min_confidence := some 101 } = empty_results :=
  ⟨by decide,
   (c8_empty_filter_result
     [({ actual := some { outcome := "1" }, prediction := some { confidence_score := some 80 } } : BTRecord)]
     { min_confidence := some 101 } (by decide)).1⟩

/-- The Poisson mass is positive for a positive rate. -/
theorem poisson_pmf_pos (k : ℕ) {lam : ℝ} (h : 0 < lam) : 0 < poisson_pmf k lam := by
  unfold poisson_pmf
  have hf : (0 : ℝ) < (Nat.factorial k : ℝ) := by exact_mod_cast Nat.factorial_pos k
  exact div_pos (mul_pos (pow_pos h k) (Real.exp_pos _)) hf

/-- For rates in the engine's clamp range `(0, 5]` every Dixon-Coles
correction factor is positive (with `ρ = −0.11`, the harmful case
`1 + λ·ρ` stays above `1 − 0.55`). -/
theorem dixon_coles_tau_pos (hg ag : ℕ) {lh la : ℝ}
    (hlh : 0 < lh) (hlh5 : lh ≤ 5) (hla : 0 < la) (hla5 : la ≤ 5) :
    0 < dixon_coles_tau hg ag lh la := by
  unfold dixon_coles_tau RHO
  split_ifs <;> nlinarith

/-- Every cell of the corrected joint distribution is positive for rates in
`(0, 5]`. -/
theorem dc_cell_pos (hg ag : ℕ) {lh la : ℝ}
    (hlh : 0 < lh) (hlh5 : lh ≤ 5) (hla : 0 < la) (hla5 : la ≤ 5) :
    0 < dc_cell hg ag lh la := by
  unfold dc_cell
  have hp := mul_pos (poisson_pmf_pos hg hlh) (poisson_pmf_pos ag hla)
  split_ifs with hcase
  · exact mul_pos hp (dixon_coles_tau_pos hg ag hlh hlh5 hla hla5)
  · simpa using hp

/-- Claim C1 (confirmed): for every valid expected-goal pair (both rates
positive, within the engine's xG clamp ceiling 5.0) the three outcome
probabilities of `_calculate_match_probabilities_advanced` sum to exactly 1
(hence to 1.0 within 1e-6), and both binary pairs — `bts_yes + bts_no` from
`_calculate_bts_advanced`, and `over_2_5 + (1 − over_2_5)` as the
`under_2_5_prob` is placed in the `MatchPrediction` — sum to exactly 1. -/
theorem c1_probability_sums (lh la : ℝ)
    (hlh : 0 < lh) (hlh5 : lh ≤ 5) (hla : 0 < la) (hla5 : la ≤ 5)
    (home_stats away_stats : Option TeamStatsE) (bts_baseline : ℚ)
    (over_baseline : Option ℚ) :
    ((calculate_match_probabilities_advanced lh la).1 +
       (calculate_match_probabilities_advanced lh la).2.1 +
       (calculate_match_probabilities_advanced lh la).2.2 = 1 ∧
     |(calculate_match_probabilities_advanced lh la).1 +
       (calculate_match_probabilities_advanced lh la).2.1 +
       (calculate_match_probabilities_advanced lh la).2.2 - 1| ≤ 1/1000000) ∧
    (calculate_bts_advanced lh la home_stats away_stats bts_baseline).1 +
      (calculate_bts_advanced lh la home_stats away_stats bts_baseline).2 = 1 ∧
    (calculate_over_under_advanced lh la over_baseline).2.2.1 +
      (1 - (calculate_over_under_advanced lh la over_baseline).2.2.1) = 1 := by
  have hcell : ∀ hg ag : ℕ, 0 < dc_cell hg ag lh la :=
    fun hg ag => dc_cell_pos hg ag hlh hlh5 hla hla5
  have hsum : (calculate_match_probabilities_advanced lh la).1 +
      (calculate_match_probabilities_advanced lh la).2.1 +
      (calculate_match_probabilities_advanced lh la).2.2 = 1 := by
    simp only [calculate_match_probabilities_advanced]
    set H := Finset.sum (Finset.range 9) fun hg =>
      Finset.sum (Finset.range 9) fun ag =>
        if ag < hg then dc_cell hg ag lh la else 0 with hHdef
    set D := Finset.sum (Finset.range 9) fun hg =>
      Finset.sum (Finset.range 9) fun ag =>
        if hg = ag then dc_cell hg ag lh la else 0 with hDdef
    set A := Finset.sum (Finset.range 9) fun hg =>
      Finset.sum (Finset.range 9) fun ag =>
        if hg < ag then dc_cell hg ag lh la else 0 with hAdef
    have hH : 0 ≤ H := by
      rw [hHdef]
      refine Finset.sum_nonneg fun hg _ => Finset.sum_nonneg fun ag _ => ?_
      split_ifs
      · exact (hcell hg ag).le
      · exact le_rfl
    have hA : 0 ≤ A := by
      rw [hAdef]
      refine Finset.sum_nonneg fun hg _ => Finset.sum_nonneg fun ag _ => ?_
      split_ifs
      · exact (hcell hg ag).le
      · exact le_rfl
    have hD : 0 < D := by
      rw [hDdef]
      refine Finset.sum_pos' (fun hg _ => Finset.sum_nonneg fun ag _ => ?_) ?_
      · split_ifs
        · exact (hcell hg ag).le
        · exact le_rfl
      · refine ⟨0, by norm_num, ?_⟩
        refine Finset.sum_pos' (fun ag _ => ?_) ⟨0, by norm_num, ?_⟩
        · split_ifs
          · exact (hcell 0 ag).le
          · exact le_rfl
        · simpa using hcell 0 0
    have htot : 0 < H + D + A := by linarith
    field_simp
  refine ⟨⟨hsum, ?_⟩, ?_, by ring⟩
  · rw [hsum]
    norm_num
  · simp only [calculate_bts_advanced]
    ring

/-- Witness for C1 at the concrete rate pair `(1, 1)`. -/
theorem c1_probability_sums_witness :
    ((0:ℝ) < 1 ∧ (1:ℝ) ≤ 5) ∧
    ((calculate_match_probabilities_advanced 1 1).1 +
       (calculate_match_probabilities_advanced 1 1).2.1 +
       (calculate_match_probabilities_advanced 1 1).2.2 = 1 ∧
     |(calculate_match_probabilities_advanced 1 1).1 +
       (calculate_match_probabilities_advanced 1 1).2.1 +
       (calculate_match_probabilities_advanced 1 1).2.2 - 1| ≤ 1/1000000) ∧
    (calculate_bts_advanced 1 1 none none (1/2)).1 +
      (calculate_bts_advanced 1 1 none none (1/2)).2 = 1 ∧
    (calculate_over_under_advanced 1 1 none).2.2.1 +
      (1 - (calculate_over_under_advanced 1 1 none).2.2.1) = 1 :=
  ⟨⟨by norm_num, by norm_num⟩,
   (c1_probability_sums 1 1 (by norm_num) (by norm_num) (by norm_num) (by norm_num)
     none none (1/2) none).1,
   (c1_probability_sums 1 1 (by norm_num) (by norm_num) (by norm_num) (by norm_num)
     none none (1/2) none).2.1,
   (c1_probability_sums 1 1 (by norm_num) (by norm_num) (by norm_num) (by norm_num)
     none none (1/2) none).2.2⟩

set_option maxHeartbeats 1000000

/-- In the balanced scenario (`λ_home = 1.69`, `λ_away = 1.3`) the common
factor `e^{−1.69}·e^{−1.3}` of every joint-distribution cell can be pulled
out of the draw aggregate, leaving an explicit rational coefficient. -/
theorem draw_sum_factor_balanced :
    (Finset.sum (Finset.range 9) fun hg =>
      Finset.sum (Finset.range 9) fun ag =>
        if hg = ag then dc_cell hg ag (169/100) (13/10) else 0) =
    (2831887584108774926027590132675787 / 541900800000000000000000000000000 : ℝ) *
      (Real.exp (-(169/100 : ℝ)) * Real.exp (-(13/10 : ℝ))) := by
  simp only [Finset.sum_range_succ, Finset.sum_range_zero, dc_cell, poisson_pmf,
    dixon_coles_tau, RHO]
  norm_num [Nat.factorial]
  ring

/-- The same factorisation for the home-win aggregate. -/
theorem home_sum_factor_balanced :
    (Finset.sum (Finset.range 9) fun hg =>
      Finset.sum (Finset.range 9) fun ag =>
        if ag < hg then dc_cell hg ag (169/100) (13/10) else 0) =
    (183430413531909190770345645182227 / 20321280000000000000000000000000 : ℝ) *
      (Real.exp (-(169/100 : ℝ)) * Real.exp (-(13/10 : ℝ))) := by
  simp only [Finset.sum_range_succ, Finset.sum_range_zero, dc_cell, poisson_pmf,
    dixon_coles_tau, RHO]
  norm_num [Nat.factorial]
  ring

/-- The same factorisation for the away-win aggregate. -/
theorem away_sum_factor_balanced :
    (Finset.sum (Finset.range 9) fun hg =>
      Finset.sum (Finset.range 9) fun ag =>
        if hg < ag then dc_cell hg ag (169/100) (13/10) else 0) =
    (11444492256496753182506815210069 / 2032128000000000000000000000000 : ℝ) *
      (Real.exp (-(169/100 : ℝ)) * Real.exp (-(13/10 : ℝ))) := by
  simp only [Finset.sum_range_succ, Finset.sum_range_zero, dc_cell, poisson_pmf,
    dixon_coles_tau, RHO]
  norm_num [Nat.factorial]
  ring

set_option maxHeartbeats 400000

/-- In the balanced scenario the normalised draw probability is an explicit
rational: the exponential factor cancels between numerator and total. -/
theorem draw_prob_balanced_eq :
    (calculate_match_probabilities_advanced (169/100) (13/10)).2.1 =
      (2831887584108774926027590132675787 / 541900800000000000000000000000000 : ℝ) /
      (32325689640076462585715874180660721 / 1625702400000000000000000000000000 : ℝ) := by
  have hE : (0:ℝ) < Real.exp (-(169/100 : ℝ)) * Real.exp (-(13/10 : ℝ)) := by positivity
  simp only [calculate_match_probabilities_advanced]
  rw [draw_sum_factor_balanced, home_sum_factor_balanced, away_sum_factor_balanced]
  rw [show (183430413531909190770345645182227 / 20321280000000000000000000000000 : ℝ) *
        (Real.exp (-(169/100 : ℝ)) * Real.exp (-(13/10 : ℝ))) +
      (2831887584108774926027590132675787 / 541900800000000000000000000000000 : ℝ) *
        (Real.exp (-(169/100 : ℝ)) * Real.exp (-(13/10 : ℝ))) +
      (11444492256496753182506815210069 / 2032128000000000000000000000000 : ℝ) *
        (Real.exp (-(169/100 : ℝ)) * Real.exp (-(13/10 : ℝ))) =
      (32325689640076462585715874180660721 / 1625702400000000000000000000000000 : ℝ) *
        (Real.exp (-(169/100 : ℝ)) * Real.exp (-(13/10 : ℝ))) from by ring]
  rw [mul_div_mul_right _ _ (ne_of_gt hE)]

/-- Claim C7 (corrected), counterexample: in the balanced scenario the
Dixon-Coles draw probability (≈ 0.263) is *below* the naive 1/3 baseline,
contradicting the claim that it lies materially above it. -/
theorem c7_balanced_scenario_counterexample :
    (calculate_match_probabilities_advanced
      ((calculate_xg 1 1 (26/10) (30/100) 0 true : ℚ) : ℝ)
      ((calculate_xg 1 1 (26/10) 0 0 false : ℚ) : ℝ)).2.1 < 1/3 := by
  have hxh : calculate_xg 1 1 (26/10) (30/100) 0 true = 169/100 := by
    norm_num [calculate_xg, clampQ]
  have hxa : calculate_xg 1 1 (26/10) 0 0 false = 13/10 := by
    norm_num [calculate_xg, clampQ]
  rw [hxh, hxa]
  rw [show (((169/100 : ℚ)) : ℝ) = (169/100 : ℝ) by norm_num,
      show (((13/10 : ℚ)) : ℝ) = (13/10 : ℝ) by norm_num]
  rw [draw_prob_balanced_eq]
  norm_num

/-- Claim C7 (corrected, amended): the balanced scenario (all ratings 1.0,
league average 2.6, form impact 0, home advantage 0.30) yields
`home_xg = 1.69` and `away_xg = 1.3` exactly, and a draw probability
strictly between 0.26 and 1/3 — i.e. raised by the Dixon-Coles low-score
correction (the uncorrected Poisson value is ≈ 0.239) but still below the
naive 1/3 baseline. -/
theorem c7_balanced_scenario_amended :
    calculate_xg 1 1 (26/10) (30/100) 0 true = 169/100 ∧
    calculate_xg 1 1 (26/10) 0 0 false = 13/10 ∧
    26/100 <
      (calculate_match_probabilities_advanced
        ((calculate_xg 1 1 (26/10) (30/100) 0 true : ℚ) : ℝ)
        ((calculate_xg 1 1 (26/10) 0 0 false : ℚ) : ℝ)).2.1 ∧
    (calculate_match_probabilities_advanced
      ((calculate_xg 1 1 (26/10) (30/100) 0 true : ℚ) : ℝ)
      ((calculate_xg 1 1 (26/10) 0 0 false : ℚ) : ℝ)).2.1 < 1/3 := by
  have hxh : calculate_xg 1 1 (26/10) (30/100) 0 true = 169/100 := by
    norm_num [calculate_xg, clampQ]
  have hxa : calculate_xg 1 1 (26/10) 0 0 false = 13/10 := by
    norm_num [calculate_xg, clampQ]
  refine ⟨hxh, hxa, ?_, ?_⟩
  · rw [hxh, hxa]
    rw [show (((169/100 : ℚ)) : ℝ) = (169/100 : ℝ) by norm_num,
        show (((13/10 : ℚ)) : ℝ) = (13/10 : ℝ) by norm_num]
    rw [draw_prob_balanced_eq]
    norm_num
  · rw [hxh, hxa]
    rw [show (((169/100 : ℚ)) : ℝ) = (169/100 : ℝ) by norm_num,
        show (((13/10 : ℚ)) : ℝ) = (13/10 : ℝ) by norm_num]
    rw [draw_prob_balanced_eq]
    norm_num

/-- Every value bet produced by the per-market loop body satisfies all the
acceptance filters it was built under: odds cap, probability floor, strict
edge over the implied probability, the odds-tiered minimum on the adjusted
edge, a tier above "Low", and the Kelly clamp. -/
theorem eval_market_some_props (confidence_score : ℚ) (m : String × ℚ × ℚ)
    (b : ValueBet) (h : eval_market confidence_score m = some b) :
    b.bookmaker_odds ≤ 5 ∧
    25/100 ≤ b.our_probability ∧
    b.implied_probability = 1 / b.bookmaker_odds ∧
    b.implied_probability < b.our_probability ∧
    (if b.bookmaker_odds > 3 then (10:ℚ) else if b.bookmaker_odds > 5/2 then 8 else 5) <
      b.adjusted_edge ∧
    b.confidence ≠ "Low" ∧
    0 ≤ b.kelly_percentage ∧ b.kelly_percentage ≤ 25 := by
  simp only [eval_market] at h
  by_cases h1 : m.2.2 ≤ 1
  · rw [if_pos h1] at h
    exact Option.noConfusion h
  rw [if_neg h1] at h
  by_cases h2 : (m.2.1 * m.2.2 - 1) * (confidence_score / 100) >
      (if m.2.2 > 3 then (10:ℚ)/100 else if m.2.2 > 5/2 then 8/100 else 5/100) ∧
      m.2.1 > 1 / m.2.2 ∧ m.2.2 ≤ 5 ∧ m.2.1 ≥ 25/100
  case neg =>
    rw [if_neg h2] at h
    exact Option.noConfusion h
  rw [if_pos h2] at h
  by_cases h3 : (if (m.2.1 * m.2.2 - 1) * (confidence_score / 100) > 15/100 ∧ confidence_score > 75 then "Very High" else if (m.2.1 * m.2.2 - 1) * (confidence_score / 100) > 12/100 ∧ confidence_score > 70 then "High" else if (m.2.1 * m.2.2 - 1) * (confidence_score / 100) > 8/100 ∧ confidence_score > 60 then "Medium" else "Low") = "Low"
  · rw [if_pos h3] at h
    exact Option.noConfusion h
  rw [if_neg h3] at h
  injection h with hb
  subst hb
  obtain ⟨hA, hB, hC, hD⟩ := h2
  dsimp only
  refine ⟨hC, hD, rfl, hB, ?_, h3, le_max_left _ _,
    max_le (by norm_num) (min_le_right _ _)⟩
  split_ifs at hA ⊢ <;> linarith

/-- Claim C2 (confirmed): every `ValueBet` returned by
`_detect_value_bets_advanced` has `bookmaker_odds ≤ 5.0`, model probability
`≥ 0.25` and strictly above the implied `1/odds`, an adjusted edge above
the odds-tiered minimum (5 points for odds ≤ 2.5, 8 for odds in
(2.5, 3.0], 10 above 3.0 — the stored `adjusted_edge` is in percent), and
a confidence tier other than "Low"; and the returned list is sorted in
descending order of adjusted edge. -/
theorem c2_value_bet_filters (odds : Option MatchOddsE)
    (home_prob draw_prob away_prob over_2_5_prob bts_prob confidence_score : ℚ) :
    (∀ b ∈ detect_value_bets_advanced odds home_prob draw_prob away_prob
        over_2_5_prob bts_prob confidence_score,
      b.bookmaker_odds ≤ 5 ∧
      25/100 ≤ b.our_probability ∧
      b.implied_probability = 1 / b.bookmaker_odds ∧
      b.implied_probability < b.our_probability ∧
      (if b.bookmaker_odds > 3 then (10:ℚ) else if b.bookmaker_odds > 5/2 then 8 else 5) <
        b.adjusted_edge ∧
      b.confidence ≠ "Low") ∧
    List.Sorted vb_le (detect_value_bets_advanced odds home_prob draw_prob away_prob
      over_2_5_prob bts_prob confidence_score) := by
  cases odds with
  | none =>
    exact ⟨fun b hb => absurd hb (by simp [detect_value_bets_advanced]),
      by simp [detect_value_bets_advanced]⟩
  | some o =>
    by_cases hc : confidence_score < 40
    · refine ⟨fun b hb => absurd hb ?_, ?_⟩
      · simp [detect_value_bets_advanced, hc]
      · simp [detect_value_bets_advanced, hc]
    · constructor
      · intro b hb
        simp only [detect_value_bets_advanced, if_neg hc, List.mem_insertionSort,
          List.mem_filterMap] at hb
        obtain ⟨m, _, heval⟩ := hb
        have t := eval_market_some_props confidence_score m b heval
        exact ⟨t.1, t.2.1, t.2.2.1, t.2.2.2.1, t.2.2.2.2.1, t.2.2.2.2.2.1⟩
      · simp only [detect_value_bets_advanced, if_neg hc]
        exact List.sorted_insertionSort vb_le _

/-- Witness for C2: a concrete match (home odds 2.0, model probability 0.6,
confidence 80) produces exactly one value bet; the filters and the
sortedness hold on it. -/
theorem c2_value_bet_filters_witness :
    (({ market := "Home Win", our_probability := 3/5, bookmaker_odds := 2, implied_probability := 1/2, edge := 10, adjusted_edge := 16, expected_value := 1/5, roi := 20, kelly_percentage := 20, confidence := "Very High", risk := "Medium", prediction_confidence := 80 } : ValueBet) ∈
      detect_value_bets_advanced (some { home_win := 2 }) (3/5) (1/5) (1/5) (1/2) (1/2) 80) ∧
    ((2:ℚ) ≤ 5 ∧ (25:ℚ)/100 ≤ 3/5) ∧
    List.Sorted vb_le (detect_value_bets_advanced (some { home_win := 2 }) (3/5) (1/5) (1/5) (1/2) (1/2) 80) :=
  ⟨(by norm_num [detect_value_bets_advanced, build_markets, eval_market, vb_le, List.filterMap_cons, List.insertionSort, List.orderedInsert]),
   ⟨((c2_value_bet_filters (some { home_win := 2 }) (3/5) (1/5) (1/5) (1/2) (1/2) 80).1
      { market := "Home Win", our_probability := 3/5, bookmaker_odds := 2, implied_probability := 1/2, edge := 10, adjusted_edge := 16, expected_value := 1/5, roi := 20, kelly_percentage := 20, confidence := "Very High", risk := "Medium", prediction_confidence := 80 }
      (by norm_num [detect_value_bets_advanced, build_markets, eval_market, vb_le, List.filterMap_cons, List.insertionSort, List.orderedInsert])).1,
    ((c2_value_bet_filters (some { home_win := 2 }) (3/5) (1/5) (1/5) (1/2) (1/2) 80).1
      { market := "Home Win", our_probability := 3/5, bookmaker_odds := 2, implied_probability := 1/2, edge := 10, adjusted_edge := 16, expected_value := 1/5, roi := 20, kelly_percentage := 20, confidence := "Very High", risk := "Medium", prediction_confidence := 80 }
      (by norm_num [detect_value_bets_advanced, build_markets, eval_market, vb_le, List.filterMap_cons, List.insertionSort, List.orderedInsert])).2.1⟩,
   (c2_value_bet_filters (some { home_win := 2 }) (3/5) (1/5) (1/5) (1/2) (1/2) 80).2⟩

/-- The clamp `max lo (min hi x)` lands in `[lo, hi]` whenever `lo ≤ hi`. -/
theorem clampQ_bounds (lo hi x : ℚ) (h : lo ≤ hi) :
    lo ≤ clampQ lo hi x ∧ clampQ lo hi x ≤ hi :=
  ⟨le_max_left _ _, max_le h (min_le_left _ _)⟩

set_option maxHeartbeats 1600000 in
/-- Claim C3 (confirmed): all four attack/defense ratings of the Rating
Model lie in `[0.3, 3.0]`; every returned value bet's `kelly_percentage`
lies in `[0, 25]`; the confidence score lies in `[0, 100]`; and the
prediction variance lies in `[0, 1]`. -/
theorem c3_numeric_bounds
    (home_stats away_stats : Option TeamStatsE) (league_avg : ℚ)
    (odds : Option MatchOddsE)
    (home_prob draw_prob away_prob over_2_5_prob bts_prob confidence_score : ℚ)
    (cs_home_xg cs_away_xg cs_variance : ℚ)
    (has_standings has_league_statistics has_form5 : Bool) (unpredictability : ℚ)
    (v_home_xg v_away_xg : ℚ)
    (v_has_standings v_has_detailed v_has_form v_has_league : Bool)
    (reliability : String) :
    ((3/10 ≤ (calculate_team_ratings home_stats away_stats league_avg).1 ∧
      (calculate_team_ratings home_stats away_stats league_avg).1 ≤ 3) ∧
     (3/10 ≤ (calculate_team_ratings home_stats away_stats league_avg).2.1 ∧
      (calculate_team_ratings home_stats away_stats league_avg).2.1 ≤ 3) ∧
     (3/10 ≤ (calculate_team_ratings home_stats away_stats league_avg).2.2.1 ∧
      (calculate_team_ratings home_stats away_stats league_avg).2.2.1 ≤ 3) ∧
     (3/10 ≤ (calculate_team_ratings home_stats away_stats league_avg).2.2.2 ∧
      (calculate_team_ratings home_stats away_stats league_avg).2.2.2 ≤ 3)) ∧
    (∀ b ∈ detect_value_bets_advanced odds home_prob draw_prob away_prob
        over_2_5_prob bts_prob confidence_score,
      0 ≤ b.kelly_percentage ∧ b.kelly_percentage ≤ 25) ∧
    (0 ≤ calculate_confidence_score cs_home_xg cs_away_xg cs_variance
        has_standings has_league_statistics has_form5 unpredictability ∧
     calculate_confidence_score cs_home_xg cs_away_xg cs_variance
        has_standings has_league_statistics has_form5 unpredictability ≤ 100) ∧
    (0 ≤ calculate_prediction_variance v_home_xg v_away_xg
        v_has_standings v_has_detailed v_has_form v_has_league reliability ∧
     calculate_prediction_variance v_home_xg v_away_xg
        v_has_standings v_has_detailed v_has_form v_has_league reliability ≤ 1) := by
  refine ⟨⟨?_, ?_, ?_, ?_⟩, ?_, ?_, ?_⟩
  · exact clampQ_bounds (3/10) 3 _ (by norm_num)
  · exact clampQ_bounds (3/10) 3 _ (by norm_num)
  · exact clampQ_bounds (3/10) 3 _ (by norm_num)
  · exact clampQ_bounds (3/10) 3 _ (by norm_num)
  · intro b hb
    cases odds with
    | none => exact absurd hb (by simp [detect_value_bets_advanced])
    | some o =>
      by_cases hc : confidence_score < 40
      · exact absurd hb (by simp [detect_value_bets_advanced, hc])
      · simp only [detect_value_bets_advanced, if_neg hc, List.mem_insertionSort,
          List.mem_filterMap] at hb
        obtain ⟨m, _, heval⟩ := hb
        have t := eval_market_some_props confidence_score m b heval
        exact ⟨t.2.2.2.2.2.2.1, t.2.2.2.2.2.2.2⟩
  · simp only [calculate_confidence_score]
    exact ⟨le_max_left _ _, max_le (by norm_num) (min_le_left _ _)⟩
  · simp only [calculate_prediction_variance]
    generalize ((if v_has_standings then 1 else 0) + (if v_has_detailed then 1 else 0) +
      (if v_has_form then 1 else 0) + (if v_has_league then (1:ℕ) else 0)) = n
    have h1 : (2:ℚ)/10 ≤ (if |v_home_xg - v_away_xg| < 3/10 then (8:ℚ)/10
        else if |v_home_xg - v_away_xg| < 6/10 then 5/10 else 2/10) ∧
        (if |v_home_xg - v_away_xg| < 3/10 then (8:ℚ)/10
        else if |v_home_xg - v_away_xg| < 6/10 then 5/10 else 2/10) ≤ 8/10 := by
      split_ifs <;> norm_num
    have h2 : (2:ℚ)/10 ≤ (if n ≥ 3 then (2:ℚ)/10 else if n = 2 then 5/10 else 8/10) ∧
        (if n ≥ 3 then (2:ℚ)/10 else if n = 2 then 5/10 else 8/10) ≤ 8/10 := by
      split_ifs <;> norm_num
    have h3 : (2:ℚ)/10 ≤ (if reliability = "High" then (2:ℚ)/10
        else if reliability = "Medium" then 4/10 else 7/10) ∧
        (if reliability = "High" then (2:ℚ)/10
        else if reliability = "Medium" then 4/10 else 7/10) ≤ 8/10 := by
      split_ifs <;> norm_num
    have h4 : (2:ℚ)/10 ≤ (if v_home_xg + v_away_xg < 15/10 then (7:ℚ)/10
        else if v_home_xg + v_away_xg > 35/10 then 6/10 else 3/10) ∧
        (if v_home_xg + v_away_xg < 15/10 then (7:ℚ)/10
        else if v_home_xg + v_away_xg > 35/10 then 6/10 else 3/10) ≤ 8/10 := by
      split_ifs <;> norm_num
    constructor
    · linarith [h1.1, h2.1, h3.1, h4.1]
    · linarith [h1.2, h2.2, h3.2, h4.2]

/-- Witness for C3: the bounds instantiated at a concrete team pair, the
concrete value bet of the C2 scenario, and concrete scorer inputs. -/
theorem c3_numeric_bounds_witness :
    (3/10 ≤ (calculate_team_ratings none none (26/10)).1 ∧
      (calculate_team_ratings none none (26/10)).1 ≤ 3) ∧
    (0 ≤ (({ market := "Home Win", our_probability := 3/5, bookmaker_odds := 2, implied_probability := 1/2, edge := 10, adjusted_edge := 16, expected_value := 1/5, roi := 20, kelly_percentage := 20, confidence := "Very High", risk := "Medium", prediction_confidence := 80 } : ValueBet)).kelly_percentage ∧
     (({ market := "Home Win", our_probability := 3/5, bookmaker_odds := 2, implied_probability := 1/2, edge := 10, adjusted_edge := 16, expected_value := 1/5, roi := 20, kelly_percentage := 20, confidence := "Very High", risk := "Medium", prediction_confidence := 80 } : ValueBet)).kelly_percentage ≤ 25) ∧
    (0 ≤ calculate_confidence_score (169/100) (13/10) (1/2) true true false (1/2) ∧
     calculate_confidence_score (169/100) (13/10) (1/2) true true false (1/2) ≤ 100) ∧
    (0 ≤ calculate_prediction_variance (169/100) (13/10) true false false true "Medium" ∧
     calculate_prediction_variance (169/100) (13/10) true false false true "Medium" ≤ 1) :=
  ⟨(c3_numeric_bounds none none (26/10) (some { home_win := 2 }) (3/5) (1/5) (1/5) (1/2) (1/2) 80
      (169/100) (13/10) (1/2) true true false (1/2) (169/100) (13/10) true false false true "Medium").1.1,
   (c3_numeric_bounds none none (26/10) (some { home_win := 2 }) (3/5) (1/5) (1/5) (1/2) (1/2) 80
      (169/100) (13/10) (1/2) true true false (1/2) (169/100) (13/10) true false false true "Medium").2.1
     { market := "Home Win", our_probability := 3/5, bookmaker_odds := 2, implied_probability := 1/2, edge := 10, adjusted_edge := 16, expected_value := 1/5, roi := 20, kelly_percentage := 20, confidence := "Very High", risk := "Medium", prediction_confidence := 80 }
     (by norm_num [detect_value_bets_advanced, build_markets, eval_market, vb_le, List.filterMap_cons, List.insertionSort, List.orderedInsert]),
   (c3_numeric_bounds none none (26/10) (some { home_win := 2 }) (3/5) (1/5) (1/5) (1/2) (1/2) 80
      (169/100) (13/10) (1/2) true true false (1/2) (169/100) (13/10) true false false true "Medium").2.2.1,
   (c3_numeric_bounds none none (26/10) (some { home_win := 2 }) (3/5) (1/5) (1/5) (1/2) (1/2) 80
      (169/100) (13/10) (1/2) true true false (1/2) (169/100) (13/10) true false false true "Medium").2.2.2⟩

/-- Claim C6 (code bug): the archive walk advances with
`current_date.replace(day=current_date.day + 1)`, which `datetime` rejects
past the end of a month.  On the month-crossing range 2024-01-31 ..
2024-02-01 — whatever the archive holds — `load_predictions` raises
`ValueError` instead of returning the date-ascending concatenation the
spec promises. -/
theorem c6_load_predictions_month_boundary (archive : ADate → List BTRecord) :
    load_predictions archive { year := 2024, month := 1, day := 31 }
        { year := 2024, month := 2, day := 1 } =
      Except.error ("ValueError: day is out of range for month") := by
  rw [load_predictions]
  rw [if_pos (by norm_num [date_le])]
  have hnone : replace_day { year := 2024, month := 1, day := 31 }
      ((({ year := 2024, month := 1, day := 31 } : ADate)).day + 1) = none := by
    norm_num [replace_day, days_in_month]
  split
  · rfl
  · rename_i next_date heq
    rw [hnone] at heq
    exact Option.noConfusion heq

end Tipster
